import Mathlib

/-!
Verification development for the python-comdb2 session layer.

The Python modules `comdb2/dbapi2.py`, `comdb2/cdb2.py`, `comdb2/factories.py`,
`comdb2/_cdb2_types.py` and the legacy snapshots `cdb2api/__init__.py`,
`cdb2api/cdb2api.py` are shallowly embedded below.  Pure helpers become Lean
functions; the stateful cursor and handle code becomes explicit state passing;
calls into the native cdb2api library are modelled by oracle parameters
(a statement either succeeds or yields a cdb2 error).  Machine integers are
`Int` with explicit range conditions.  Python floor division (`//`, divmod) is
written with Euclidean division on `Int`: every divisor in this code is
positive, where floor division and Euclidean division coincide.
-/

/-! ## The first-keyword scanner (dbapi2.py `_FIRST_WORD_OF_STMT`)

The regex skips any number of C-style block comments and newline-terminated
`--` comments, each preceded by optional whitespace, then captures the first
run of word characters.  `re.ASCII` restricts `\w` and `\s` to ASCII. -/

/-- ASCII whitespace, the characters matched by `\s` under `re.ASCII`. -/
def isSpaceChar (c : Char) : Bool :=
  c = ' ' || c = '\t' || c = '\n' || c = '\r' || c = '\x0b' || c = '\x0c'

/-- ASCII word characters, matched by `\w` under `re.ASCII`. -/
def isWordChar (c : Char) : Bool :=
  c.isAlphanum || c = '_'

/-- Skip leading ASCII whitespace. -/
def skipWs : List Char → List Char
  | [] => []
  | c :: rest => if isSpaceChar c then skipWs rest else c :: rest

/-- Consume the body of a block comment up to and including the closing
delimiter; `none` when the comment is unterminated (the regex alternative
fails in that case). -/
def dropBlockComment : List Char → Option (List Char)
  | [] => none
  | '*' :: '/' :: rest => some rest
  | _ :: rest => dropBlockComment rest

/-- Consume the body of a `--` comment up to and including the newline;
`none` when there is no terminating newline (the regex requires one). -/
def dropLineComment : List Char → Option (List Char)
  | [] => none
  | '\n' :: rest => some rest
  | _ :: rest => dropLineComment rest

/-- One pass of the comment-skipping loop: whitespace, then a comment when one
is present and well terminated.  Each successful iteration consumes at least
the two comment delimiter characters, so `s.length + 1` fuel always suffices;
the fuel-exhausted branch is unreachable. -/
def skipCommentsWsAux : Nat → List Char → List Char
  | 0, s => s
  | fuel + 1, s =>
    let t := skipWs s
    match t with
    | '/' :: '*' :: r =>
      match dropBlockComment r with
      | some r2 => skipCommentsWsAux fuel r2
      | none => t
    | '-' :: '-' :: r =>
      match dropLineComment r with
      | some r2 => skipCommentsWsAux fuel r2
      | none => t
    | _ => t

/-- Skip interleaved whitespace and comments, as the regex prefix does. -/
def skipCommentsWs (s : List Char) : List Char :=
  skipCommentsWsAux (s.length + 1) s

/-- Lowercase an ASCII string, as Python str.lower does on the captured word
(word characters are ASCII under `re.ASCII`). -/
def asciiLower (s : List Char) : List Char :=
  s.map Char.toLower

/-- `_sql_operation` in dbapi2.py: the first word of the statement after
comments and whitespace, lowercased; `None` when the regex does not match. -/
def sqlOperation (sql : String) : Option String :=
  let rest := skipCommentsWs sql.data
  let word := rest.takeWhile isWordChar
  if word.isEmpty then none
  else some (String.mk (asciiLower word))

/-- `_operation_ends_transaction` in dbapi2.py. -/
def operationEndsTransaction (op : Option String) : Bool :=
  op = some "commit" || op = some "rollback"

/-- `_modifies_rows` in dbapi2.py: operations that can modify the database
(exec is deliberately excluded because it might return a result set). -/
def modifiesRows (op : Option String) : Bool :=
  op = some "commit" || op = some "insert" || op = some "update" || op = some "delete"

/-- `Cursor._ErrorMessagesByOperation` in dbapi2.py, as a lookup that returns
the message for operations forbidden outside autocommit mode. -/
def errorMessagesByOperation (op : Option String) : Option String :=
  match op with
  | some "begin" => some "Transactions may not be started explicitly"
  | some "commit" => some "Use Connection.commit to commit transactions"
  | some "rollback" => some "Use Connection.rollback to roll back transactions"
  | _ => none

/-! ## Error codes and the dbapi2 exception taxonomy

The numeric values of `enum cdb2_errors` come from the external C header
(`build.py` pulls them with cffi), so the codes are modelled symbolically. -/

/-- The cdb2api error codes used by this layer (`cdb2.ERROR_CODE` keys). -/
inductive ErrorCode
  | connectError | notconnected | prepareError | ioError | internal
  | nostatement | badcolumn | badstate | asyncerr | invalidId
  | recordOutOfRange | rejected | stopped | badreq | dbcreateFailed
  | threadpoolInternal | readonly | nomaster | untaggedDatabase | constraints
  | deadlock | tranIoError | access | tranModeUnsupported | verifyError
  | fkeyViolation | nullConstraint | convFail | nonkless | malloc
  | notsupported | duplicate | tznameFail | unknown
  deriving DecidableEq, Repr

/-- `cdb2.Error`: the single exception type of the comdb2.cdb2 layer. -/
structure Cdb2Error where
  code : ErrorCode
  message : String
  deriving DecidableEq, Repr

/-- The dbapi2 exception classes that can be raised (Warning never is). -/
inductive ExcKind
  | interfaceError | internalError | operationalError | programmingError
  | integrityError | uniqueKeyConstraintError | foreignKeyConstraintError
  | nonNullConstraintError | dataError | notSupportedError
  deriving DecidableEq, Repr

/-- `_EXCEPTION_BY_RC` in dbapi2.py.  Codes missing from the dict fall back to
OperationalError in `_raise_wrapped_exception`; every listed code appears. -/
def exceptionByRc : ErrorCode → ExcKind
  | .connectError => .operationalError
  | .notconnected => .programmingError
  | .prepareError => .programmingError
  | .ioError => .operationalError
  | .internal => .internalError
  | .nostatement => .programmingError
  | .badcolumn => .programmingError
  | .badstate => .programmingError
  | .asyncerr => .operationalError
  | .invalidId => .internalError
  | .recordOutOfRange => .operationalError
  | .rejected => .operationalError
  | .stopped => .operationalError
  | .badreq => .operationalError
  | .dbcreateFailed => .operationalError
  | .threadpoolInternal => .operationalError
  | .readonly => .notSupportedError
  | .nomaster => .internalError
  | .untaggedDatabase => .notSupportedError
  | .constraints => .integrityError
  | .deadlock => .operationalError
  | .tranIoError => .operationalError
  | .access => .operationalError
  | .tranModeUnsupported => .notSupportedError
  | .verifyError => .operationalError
  | .fkeyViolation => .foreignKeyConstraintError
  | .nullConstraint => .nonNullConstraintError
  | .convFail => .dataError
  | .nonkless => .notSupportedError
  | .malloc => .operationalError
  | .notsupported => .notSupportedError
  | .duplicate => .uniqueKeyConstraintError
  | .tznameFail => .dataError
  | .unknown => .operationalError

/-- Substring test on character lists (Python `in` on str). -/
def containsSub (hay needle : List Char) : Bool :=
  needle.isPrefixOf hay ||
    match hay with
    | [] => false
    | _ :: t => containsSub t needle

/-- `_raise_wrapped_exception` in dbapi2.py: choose the exception class for
a `cdb2.Error`.  The formatted message appends a numeric rc suffix (external
header value) that cannot complete the needle, so the substring override is
checked on the original error message. -/
def raiseWrappedKind (e : Cdb2Error) : ExcKind :=
  if containsSub e.message.data "null constraint violation".data then
    .nonNullConstraintError
  else exceptionByRc e.code

/-- An exception escaping the dbapi2 layer: either an InterfaceError raised by
the layer itself, or a wrapped database error with its chosen class. -/
inductive DbExc
  | interface (msg : String)
  | wrapped (kind : ExcKind) (e : Cdb2Error)
  deriving DecidableEq, Repr

/-- Wrap a `cdb2.Error` the way `_raise_wrapped_exception` does. -/
def wrapExc (e : Cdb2Error) : DbExc :=
  .wrapped (raiseWrappedKind e) e

/-! ## The transaction coordinator (dbapi2.py `Cursor.execute` / `Cursor._execute`)

The native handle is an oracle: running a statement either succeeds or yields
a `cdb2.Error`, and `cdb2_get_effects` either yields counts or fails.  The
`%(name)s` interpolation is Python string formatting (external); its outcome
is a parameter of the model.  The cursor `description` bookkeeping and the
closed-cursor guard are orthogonal to claims C1-C3 and are omitted here. -/

/-- `cdb2.Effects`: counts returned by cdb2_get_effects. -/
structure Effects where
  numAffected : Int
  numSelected : Int
  numUpdated : Int
  numDeleted : Int
  numInserted : Int
  deriving DecidableEq, Repr

/-- The native handle as seen by `Cursor._execute`: a deterministic outcome per
statement (`none` = success) and a get-effects outcome. -/
structure Hndl where
  runStatement : String → Option Cdb2Error
  getEffects : Except Cdb2Error Effects

/-- The transaction state held by the dbapi2 `Connection`. -/
structure ConnState where
  autocommit : Bool
  inTransaction : Bool
  deriving DecidableEq, Repr

/-- Outcome of variable interpolation (`sql % {name: "@" + name ...}`). -/
inductive InterpResult
  | ok (sql : String)
  | keyError (key : String)
  | otherError
  deriving DecidableEq, Repr

/-- Observable outcome of one `Cursor._execute` / `Cursor.execute` call:
the statements handed to `Handle.execute` in order, the final connection
state, the cursor rowcount, and the exception raised if any. -/
structure ExecOutcome where
  sent : List String
  conn : ConnState
  rowcount : Int
  error : Option DbExc
  deriving DecidableEq, Repr

/-- dbapi2.py Cursor._execute lines 1093-1100: when not in autocommit mode,
any non-SET operation outside a transaction first sends a literal begin and,
on success, sets the in_transaction flag.  Returns the statements sent, the
updated connection state, and the error raised if the begin failed. -/
def implicitBeginPhase (h : Hndl) (conn : ConnState) (operation : Option String) :
    List String × ConnState × Option DbExc :=
  if conn.autocommit = false ∧ conn.inTransaction = false ∧ operation ≠ some "set" then
    match h.runStatement "begin" with
    | some e => (["begin"], conn, some (wrapExc e))
    | none => (["begin"], { conn with inTransaction := true }, none)
  else ([], conn, none)

/-- dbapi2.py Cursor._execute lines 1105-1114: interpolation failures become
InterfaceErrors.  str(KeyError(k)) renders the key in quotes. -/
def interpolatePhase (interp : InterpResult) : Except DbExc String :=
  match interp with
  | .ok s => .ok s
  | .keyError k =>
    .error (.interface ("No value provided for parameter \x27" ++ k ++ "\x27"))
  | .otherError => .error (.interface "Invalid Python format string for query")

/-- dbapi2.py Cursor._update_rowcount: num_affected from get_effects, or -1 on
error. -/
def updateRowcount (h : Hndl) : Int :=
  match h.getEffects with
  | .ok eff => eff.numAffected
  | .error _ => -1

/-- dbapi2.py Cursor._execute (lines 1090-1131), as explicit state passing.
Order as in the source: reset rowcount; implicit-begin block; interpolation;
clear in_transaction for commit/rollback (before the statement is sent, so
that the transaction ends even when the statement fails); run the statement;
set in_transaction after an explicit begin; refresh rowcount after a
row-modifying statement outside a transaction. -/
def cursorPrivExecute (h : Hndl) (conn : ConnState) (sql : String)
    (interp : InterpResult) : ExecOutcome :=
  let operation := sqlOperation sql
  match implicitBeginPhase h conn operation with
  | (sent, conn1, some e) => ⟨sent, conn1, -1, some e⟩
  | (sent, conn1, none) =>
    match interpolatePhase interp with
    | .error e => ⟨sent, conn1, -1, some e⟩
    | .ok sqlF =>
      let conn2 :=
        if operationEndsTransaction operation then { conn1 with inTransaction := false }
        else conn1
      match h.runStatement sqlF with
      | some e => ⟨sent ++ [sqlF], conn2, -1, some (wrapExc e)⟩
      | none =>
        if operation = some "begin" then
          ⟨sent ++ [sqlF], { conn2 with inTransaction := true }, -1, none⟩
        else if conn2.inTransaction = false ∧ modifiesRows operation then
          ⟨sent ++ [sqlF], conn2, updateRowcount h, none⟩
        else
          ⟨sent ++ [sqlF], conn2, -1, none⟩

/-- dbapi2.py Cursor.execute (lines 1052-1068): outside autocommit mode the
begin/commit/rollback operations are rejected with InterfaceError before
anything reaches the handle; otherwise `_execute` runs.  `rowcount0` is the
rowcount the cursor held before the call (unchanged on the reject path). -/
def cursorExecute (h : Hndl) (conn : ConnState) (sql : String)
    (interp : InterpResult) (rowcount0 : Int) : ExecOutcome :=
  let operation := sqlOperation sql
  if conn.autocommit = false then
    match errorMessagesByOperation operation with
    | some msg => ⟨[], conn, rowcount0, some (.interface msg)⟩
    | none => cursorPrivExecute h conn sql interp
  else cursorPrivExecute h conn sql interp

/-! ## The value model (comdb2/cdb2.py `_bind_args` and `Handle._column_value`)

Python datetimes here are timezone-aware (the value model of the spec carries
a timezone name); such a value is represented by the instant it denotes, in
microseconds since the Unix epoch, plus the tzinfo name.  The civil calendar
fields of `struct cdb2_tm` (tm_year..tm_sec, written by the repository with
the +1900/+1 offsets undone on decode) are in bijection with the POSIX
seconds value they denote; the conversion in both directions is performed by
the Python standard library (`utctimetuple`, the `datetime` constructor), so
the embedding represents those six fields canonically by that seconds value.
Timezone offsets are whole seconds, so the microsecond field is the same in
local and UTC civil time. -/

/-- A timezone-aware Python datetime: the denoted instant in microseconds
since the epoch, and the name of its tzinfo. -/
structure PyDatetime where
  instantUs : Int
  tz : String
  deriving DecidableEq, Repr

/-- An IEEE-754 double, abstracted to what Python equality observes: a finite
value (as a rational; minus zero and plus zero denote the same value), the two
infinities, or NaN.  The bind/decode path stores and returns the double
unchanged, so any value-faithful abstraction embeds it exactly. -/
inductive F64
  | finite (q : ℚ)
  | inf
  | negInf
  | nan
  deriving DecidableEq, Repr

/-- Python `==` on floats (IEEE): NaN is unequal to everything, itself
included. -/
def F64.pyEq : F64 → F64 → Bool
  | .finite a, .finite b => a = b
  | .inf, .inf => true
  | .negInf, .negInf => true
  | _, _ => false

/-- The Python values this layer binds and returns: the Value variants of the
data model. -/
inductive PyValue
  | none
  | int (i : Int)
  | real (f : F64)
  | blob (b : List UInt8)
  | text (s : String)
  | datetime (d : PyDatetime)
  | datetimeUs (d : PyDatetime)
  deriving DecidableEq, Repr

/-- Python `==` on these values.  Aware datetimes compare by the instant they
denote regardless of zone, and `DatetimeUs` is a subclass of `datetime`, so
the two datetime variants cross-compare; int and float cross-compare
numerically; NaN floats compare unequal to themselves. -/
def PyValue.pyEq : PyValue → PyValue → Bool
  | .none, .none => true
  | .int a, .int b => a = b
  | .int a, .real (.finite q) => (a : ℚ) = q
  | .real (.finite q), .int b => q = (b : ℚ)
  | .real a, .real b => a.pyEq b
  | .blob a, .blob b => a = b
  | .text a, .text b => a = b
  | .datetime a, .datetime b => a.instantUs = b.instantUs
  | .datetime a, .datetimeUs b => a.instantUs = b.instantUs
  | .datetimeUs a, .datetime b => a.instantUs = b.instantUs
  | .datetimeUs a, .datetimeUs b => a.instantUs = b.instantUs
  | _, _ => false

/-- `utctimetuple`: the seconds part of the UTC civil decomposition of the
instant (Python floor division by one million; the divisor is positive so
Euclidean division is floor division). -/
def utcSeconds (instantUs : Int) : Int :=
  instantUs / 1000000

/-- The `microsecond` attribute of the datetime: the sub-second part of the
civil decomposition, in `[0, 1000000)`. -/
def microsecondField (instantUs : Int) : Int :=
  instantUs % 1000000

/-- The model of the pytz timezone database used by decode (`pytz.timezone`),
with offsets in seconds east of UTC; `none` models
`pytz.UnknownTimeZoneError`.  The database itself is external to the
repository; a table with a handful of zones suffices for this development. -/
def tzOffsetSeconds : String → Option Int
  | "UTC" => some 0
  | "EST" => some (-18000)
  | "America/New_York" => some (-18000)
  | _ => none

/-- The `cdb2_client_datetime_t` struct: civil fields (canonically, the
seconds value the tm_year..tm_sec fields denote when read as a civil time),
the millisecond field, and the zone label. -/
structure ClientDatetimeT where
  tmSeconds : Int
  msec : Int
  tzname : String
  deriving DecidableEq, Repr

/-- The `cdb2_client_datetimeus_t` struct. -/
structure ClientDatetimeUsT where
  tmSeconds : Int
  usec : Int
  tzname : String
  deriving DecidableEq, Repr

/-- `_cdb2_client_datetime_common` in comdb2/cdb2.py (lines 298-309): the tm
fields are filled from `val.utctimetuple()` — the civil fields of the instant
converted to UTC — and the zone label is the fixed byte string UTC. -/
def cdb2ClientDatetimeCommon (val : PyDatetime) : Int × String :=
  (utcSeconds val.instantUs, "UTC")

/-- `_cdb2_client_datetime_t` in comdb2/cdb2.py (lines 312-317): add 500
microseconds, fill the common fields, and floor-divide the microsecond field
by 1000 — together, round-to-nearest-millisecond with ties upward (the
microsecond field is nonnegative, so upward is away from zero). -/
def cdb2ClientDatetimeT (val : PyDatetime) : ClientDatetimeT :=
  let rounded := val.instantUs + 500
  let common := cdb2ClientDatetimeCommon { val with instantUs := rounded }
  { tmSeconds := common.1
    msec := microsecondField rounded / 1000
    tzname := common.2 }

/-- `_cdb2_client_datetimeus_t` in comdb2/cdb2.py (lines 320-324): no
rounding; the microsecond field is carried whole. -/
def cdb2ClientDatetimeUsT (val : PyDatetime) : ClientDatetimeUsT :=
  let common := cdb2ClientDatetimeCommon val
  { tmSeconds := common.1
    usec := microsecondField val.instantUs
    tzname := common.2 }

/-- `_construct_datetime` in comdb2/cdb2.py (lines 258-267): look the zone up
by the carried name with `pytz.timezone`, build the naive civil timestamp,
and localize it — the denoted instant is the civil seconds minus the zone
offset.  `none` models the pytz lookup failure. -/
def constructDatetime (tmSeconds microseconds : Int) (tzname : String) :
    Option PyDatetime :=
  match tzOffsetSeconds tzname with
  | some off => some { instantUs := (tmSeconds - off) * 1000000 + microseconds, tz := tzname }
  | none => none

/-- The native buffer bound to or returned by cdb2api for one value.  A text
buffer is classified by UTF-8 validity: the encoder only ever produces valid
UTF-8 (Python str encoded with utf-8), while a result column may hold bytes
that fail to decode; the byte-level codec is Python library behavior. -/
inductive RawVal
  | intBuf (i : Int)
  | realBuf (f : F64)
  | bytesBuf (b : List UInt8)
  | utf8Buf (s : String)
  | badUtf8Buf (b : List UInt8)
  | datetimeBuf (t : ClientDatetimeT)
  | datetimeUsBuf (t : ClientDatetimeUsT)
  deriving DecidableEq, Repr

/-- The comdb2 column type tags (`cdb2_coltype`). -/
inductive ColType
  | integer | real | cstring | blob | datetime | intervalym | intervalds
  | datetimeus | intervaldsus
  deriving DecidableEq, Repr

/-- The length argument of `cdb2_bind_param`: a literal byte count, or one of
the two `ffi.sizeof` struct sizes (external constants). -/
inductive BindSize
  | bytes (n : Int)
  | sizeofClientDatetimeT
  | sizeofClientDatetimeUsT
  deriving DecidableEq, Repr

/-- `_bind_args` in comdb2/cdb2.py (lines 327-350): map one Python value to
(native type tag, buffer, length).  None binds as the integer tag with a null
payload and zero length; an int outside the signed 64-bit range makes
`ffi.new("int64_t *", val)` raise OverflowError, re-raised as a CONV_FAIL
`cdb2.Error` — no buffer is created and nothing is bound.  (The model renders
the OverflowError text opaquely inside the message.) -/
def bindArgs : PyValue → Except Cdb2Error (ColType × Option RawVal × BindSize)
  | .none => .ok (.integer, none, .bytes 0)
  | .int i =>
    if -(2 ^ 63) ≤ i ∧ i < 2 ^ 63 then .ok (.integer, some (.intBuf i), .bytes 8)
    else .error ⟨.convFail, "Can\x27t bind value " ++ toString i ++ ": OverflowError"⟩
  | .real f => .ok (.real, some (.realBuf f), .bytes 8)
  | .blob b => .ok (.blob, some (.bytesBuf b), .bytes b.length)
  | .text s => .ok (.cstring, some (.utf8Buf s), .bytes s.utf8ByteSize)
  | .datetimeUs d =>
    .ok (.datetimeus, some (.datetimeUsBuf (cdb2ClientDatetimeUsT d)), .sizeofClientDatetimeUsT)
  | .datetime d =>
    .ok (.datetime, some (.datetimeBuf (cdb2ClientDatetimeT d)), .sizeofClientDatetimeT)

/-- One column of a result row as the native layer presents it: the column
type tag and the value buffer (`none` models a NULL pointer). -/
structure ResultCol where
  typecode : ColType
  val : Option RawVal
  deriving DecidableEq, Repr

/-- The ways the conversion inside `_column_value` can fail. -/
inductive DecodeFailure
  | unicodeDecodeError (b : List UInt8)
  | pytzUnknownZone (name : String)
  | unsupportedType
  deriving DecidableEq, Repr

/-- The typed conversion of one column inside `Handle._column_value`
(comdb2/cdb2.py lines 661-681, the try block): NULL decodes to None; the six
recognized type tags decode through the value model; interval tags fall
through the if chain as unsupported.  A tag/buffer mismatch cannot arise from
the embedded encoder and is classified as unsupported. -/
def columnValueRaw (c : ResultCol) : Except DecodeFailure (Option PyValue) :=
  match c.val with
  | none => .ok none
  | some v =>
    match c.typecode, v with
    | .integer, .intBuf i => .ok (some (.int i))
    | .real, .realBuf f => .ok (some (.real f))
    | .blob, .bytesBuf b => .ok (some (.blob b))
    | .cstring, .utf8Buf s => .ok (some (.text s))
    | .cstring, .badUtf8Buf b => .error (.unicodeDecodeError b)
    | .datetimeus, .datetimeUsBuf t =>
      match constructDatetime t.tmSeconds t.usec t.tzname with
      | some d => .ok (some (.datetimeUs d))
      | none => .error (.pytzUnknownZone t.tzname)
    | .datetime, .datetimeBuf t =>
      match constructDatetime t.tmSeconds (t.msec * 1000) t.tzname with
      | some d => .ok (some (.datetime d))
      | none => .error (.pytzUnknownZone t.tzname)
    | _, _ => .error .unsupportedType

/-- A decoded column as Python sees it: the NULL column is the Python None
value. -/
def optToValue : Option PyValue → PyValue
  | none => .none
  | some v => v

/-- The name of a column type as rendered into decode error messages. -/
def colTypeName : ColType → String
  | .integer => "CDB2_INTEGER"
  | .real => "CDB2_REAL"
  | .cstring => "CDB2_CSTRING"
  | .blob => "CDB2_BLOB"
  | .datetime => "CDB2_DATETIME"
  | .intervalym => "CDB2_INTERVALYM"
  | .intervalds => "CDB2_INTERVALDS"
  | .datetimeus => "CDB2_DATETIMEUS"
  | .intervaldsus => "CDB2_INTERVALDSUS"

/-- The str() of the caught conversion exception, as rendered into the
CONV_FAIL message (an external library rendering, modelled opaquely). -/
def decodeFailureStr : DecodeFailure → String
  | .unicodeDecodeError b =>
    "\x27utf-8\x27 codec can\x27t decode byte: " ++ toString b
  | .pytzUnknownZone name => "UnknownTimeZoneError: " ++ name
  | .unsupportedType => "Unsupported column type"

/-- `Handle._column_value` in comdb2/cdb2.py (lines 661-704): conversion
failures inside the try block are wrapped as CONV_FAIL `cdb2.Error`s and an
unrecognized type tag as NOTSUPPORTED, each with a message naming the column
type, index and name.  The error is raised immediately; the handle state is
untouched. -/
def columnValue (c : ResultCol) (i : Nat) (colName : String) :
    Except Cdb2Error (Option PyValue) :=
  match columnValueRaw c with
  | .ok v => .ok v
  | .error f =>
    let code := match f with
      | .unsupportedType => ErrorCode.notsupported
      | _ => ErrorCode.convFail
    .error ⟨code,
      "Failed to decode " ++ colTypeName c.typecode ++ " column " ++ toString i ++
        " (\x27" ++ colName ++ "\x27): " ++ decodeFailureStr f⟩

/-- The wire transport of a bound parameter back as a result column: the
round-trip claims compare a value against the decode of its own encoding. -/
def wireCol (r : ColType × Option RawVal × BindSize) : ResultCol :=
  ⟨r.1, r.2.1⟩

/-- decode-of-encode for one value: bind it, present the bound buffer as a
result column, and decode it; `none` when either side fails. -/
def decodeEncode (v : PyValue) : Option PyValue :=
  match bindArgs v with
  | .error _ => none
  | .ok r =>
    match columnValueRaw (wireCol r) with
    | .error _ => none
    | .ok w => some (optToValue w)

/-- The composite effect of the millisecond encoding on the denoted instant:
round to the nearest multiple of 1000 microseconds, ties upward. -/
def msRound (x : Int) : Int :=
  (x + 500) / 1000 * 1000

/-- Millisecond-datetime discriminator. -/
def PyValue.isMsDatetime : PyValue → Bool
  | .datetime _ => true
  | _ => false

/-- The domain of the amended round-trip claim: integers within the signed
64-bit range (others never bind), and non-NaN doubles (NaN binds and decodes
to NaN but Python == calls NaN unequal to itself). -/
def RoundTrippable : PyValue → Prop
  | .int i => -(2 ^ 63) ≤ i ∧ i < 2 ^ 63
  | .real f => f ≠ .nan
  | _ => True

/-! ## Row iteration and drain behavior

Two generations of `Handle.__next__` exist in the repository.  The legacy
`cdb2api/cdb2api.py` one catches a UnicodeDecodeError raised while decoding
a column, drains the remaining rows of the result set, lets an error from the
drain win, and otherwise reports the original failure as a CONV_FAIL error.
The `comdb2/cdb2.py` one wraps every decode failure in `_column_value` and
raises it immediately, without draining.  The native cursor is modelled by a
script of `cdb2_next_record` outcomes consumed in order. -/

/-- The outcome of one `cdb2_next_record` call: a next row with its raw
column buffers, the clean end of the result set (CDB2_OK_DONE), or an error
return code. -/
inductive NextOutcome
  | row (cols : List ResultCol)
  | done
  | fail (e : Cdb2Error)
  deriving DecidableEq, Repr

/-- The iteration state of a handle: the more-rows flag, the column names of
the result set, the raw buffers of the current row (meaningful while the flag
is set), and the script of future `cdb2_next_record` outcomes. -/
structure IterState where
  moreRows : Bool
  names : List String
  current : List ResultCol
  script : List NextOutcome
  deriving DecidableEq, Repr

/-- `Handle._next_record`: clear the more-rows flag, advance the native
cursor, set the flag again on CDB2_OK, pass OK_DONE silently, and raise on
any other return code.  An exhausted script behaves as OK_DONE. -/
def nextRecord (st : IterState) : IterState × Option Cdb2Error :=
  match st.script with
  | [] => ({ st with moreRows := false, current := [] }, none)
  | .row cols :: rest => ({ st with moreRows := true, current := cols, script := rest }, none)
  | .done :: rest => ({ st with moreRows := false, current := [], script := rest }, none)
  | .fail e :: rest => ({ st with moreRows := false, current := [], script := rest }, some e)

/-- `Handle._consume_all_rows`: advance until no more rows are available,
stopping early if a `_next_record` call raises.  Each iteration either stops
or consumes one script entry, so `script.length + 1` fuel always suffices. -/
def consumeAllRowsAux : Nat → IterState → IterState × Option Cdb2Error
  | 0, st => (st, none)
  | fuel + 1, st =>
    if st.moreRows = false then (st, none)
    else
      match nextRecord st with
      | (st2, some e) => (st2, some e)
      | (st2, none) => consumeAllRowsAux fuel st2

/-- `Handle._consume_all_rows` with sufficient fuel. -/
def consumeAllRows (st : IterState) : IterState × Option Cdb2Error :=
  consumeAllRowsAux (st.script.length + 1) st

/-- A failure raised while decoding one row in the legacy
`cdb2api/cdb2api.py` `_column_value`: a UnicodeDecodeError from the text
codec, or a `cdb2.Error` (the NOTSUPPORTED unknown-type case, raised
directly, uncaught by `__next__`). -/
inductive LegacyDecodeFail
  | unicode (b : List UInt8)
  | err (e : Cdb2Error)
  deriving DecidableEq, Repr

/-- `cdb2api/cdb2api.py Handle._column_value` (lines 265-286): as
`columnValueRaw`, but the UnicodeDecodeError escapes unwrapped and the
unknown type tag raises a NOTSUPPORTED `cdb2.Error` directly. -/
def legacyColumnValue (c : ResultCol) : Except LegacyDecodeFail (Option PyValue) :=
  match columnValueRaw c with
  | .ok v => .ok v
  | .error (.unicodeDecodeError b) => .error (.unicode b)
  | .error (.pytzUnknownZone name) =>
    .error (.err ⟨.unknown, "UnknownTimeZoneError: " ++ name⟩)
  | .error .unsupportedType =>
    .error (.err ⟨.notsupported, "Can\x27t handle type returned by database!"⟩)

/-- Decode every column of the current row, left to right, stopping at the
first failure (the Python list comprehension). -/
def legacyDecodeRow : List ResultCol → Except LegacyDecodeFail (List PyValue)
  | [] => .ok []
  | c :: rest =>
    match legacyColumnValue c with
    | .error f => .error f
    | .ok v =>
      match legacyDecodeRow rest with
      | .error f => .error f
      | .ok vs => .ok (optToValue v :: vs)

/-- The str() of the UnicodeDecodeError, rendered opaquely (external library
string), as reported in the CONV_FAIL error. -/
def unicodeDecodeErrorStr (b : List UInt8) : String :=
  "\x27utf-8\x27 codec can\x27t decode byte: " ++ toString b

/-- What one `__next__` call produces. -/
inductive NextResult
  | stopIteration
  | row (vals : List PyValue)
  | error (e : Cdb2Error)
  deriving DecidableEq, Repr

/-- The error code of a `__next__` outcome, when it is an error. -/
def NextResult.errorCode : NextResult → Option ErrorCode
  | .error e => some e.code
  | _ => none

/-- `cdb2api/cdb2api.py Handle.__next__` (lines 201-215): stop when no rows
remain; decode the current row and advance; when the decode raised a
UnicodeDecodeError, first drain the remaining rows — an error from the drain
is raised in its place, and otherwise the original failure is reported as a
CONV_FAIL error.  Any other decode failure propagates immediately. -/
def legacyNext (st : IterState) : NextResult × IterState :=
  if st.moreRows = false then (.stopIteration, st)
  else
    match legacyDecodeRow st.current with
    | .ok vals =>
      match nextRecord st with
      | (st2, some e) => (.error e, st2)
      | (st2, none) => (.row vals, st2)
    | .error (.err e) => (.error e, st)
    | .error (.unicode b) =>
      match consumeAllRows st with
      | (st2, some e) => (.error e, st2)
      | (st2, none) => (.error ⟨.convFail, unicodeDecodeErrorStr b⟩, st2)

/-- Decode every column of the current row through the wrapping
`_column_value` of comdb2/cdb2.py, with its positional error messages. -/
def comdb2DecodeRowAux (names : List String) (i : Nat) :
    List ResultCol → Except Cdb2Error (List PyValue)
  | [] => .ok []
  | c :: rest =>
    match columnValue c i (names.getD i "") with
    | .error e => .error e
    | .ok v =>
      match comdb2DecodeRowAux names (i + 1) rest with
      | .error e => .error e
      | .ok vs => .ok (optToValue v :: vs)

/-- All columns of the current row, via `Handle._column_value`. -/
def comdb2DecodeRow (st : IterState) : Except Cdb2Error (List PyValue) :=
  comdb2DecodeRowAux st.names 0 st.current

/-- `comdb2/cdb2.py Handle.__next__` (lines 566-581), with no row factory
configured (`_row_class is None`): stop when no rows remain; decode the
current row — a decode failure, already wrapped by `_column_value`, is raised
at once, leaving the remaining rows pending (they are only consumed at the
start of the next `execute`) — then advance and return the values in
positional order. -/
def comdb2Next (st : IterState) : NextResult × IterState :=
  if st.moreRows = false then (.stopIteration, st)
  else
    match comdb2DecodeRow st with
    | .error e => (.error e, st)
    | .ok vals =>
      match nextRecord st with
      | (st2, some e) => (.error e, st2)
      | (st2, none) => (.row vals, st2)

/-! ## Row shape factories (comdb2/factories.py)

The duplicate-name check raises a Python ValueError whose arguments are the
header string followed by every duplicated name; `Handle.execute`
(comdb2/cdb2.py lines 541-547) re-raises any row-factory exception as
`cdb2.Error(CDB2ERR_UNKNOWN, str(e))`, which the dbapi2 layer then maps
through `_EXCEPTION_BY_RC`. -/

/-- The exceptions a row factory can raise. -/
inductive PyError
  | valueError (args : List String)
  deriving DecidableEq, Repr

/-- The distinct elements of a list in first-occurrence order (what iterating
a Python set/Counter built from the list yields). -/
def distinctInOrder (seen : List String) : List String → List String
  | [] => []
  | x :: xs =>
    if x ∈ seen then distinctInOrder seen xs
    else x :: distinctInOrder (x :: seen) xs

/-- The duplicated column names, in first-occurrence order: the Counter keys
whose count exceeds one. -/
def duplicatedNames (cols : List String) : List String :=
  (distinctInOrder [] cols).filter (fun k => 1 < cols.count k)

/-- `_raise_on_duplicate_column_names` in factories.py (lines 132-138):
return normally when the names are distinct, else raise
ValueError("Duplicated column names", *bad_names). -/
def raiseOnDuplicateColumnNames (cols : List String) : Option PyError :=
  if cols.length = (distinctInOrder [] cols).length then none
  else some (.valueError ("Duplicated column names" :: duplicatedNames cols))

/-- A keyed row: the column names paired with the values, the common content
of the dict and namedtuple shapes. -/
def keyedRow (cols : List String) (vals : List PyValue) : List (String × PyValue) :=
  cols.zip vals

/-- `dict_row_factory` in factories.py: reject duplicated names up front,
else return the constructor mapping values to a name-keyed row. -/
def dictRowFactory (cols : List String) :
    Except PyError (List PyValue → List (String × PyValue)) :=
  match raiseOnDuplicateColumnNames cols with
  | some e => .error e
  | none => .ok (keyedRow cols)

/-- The Python keywords (stdlib `keyword.kwlist`), which namedtuple rejects
as field names. -/
def pythonKeywords : List String :=
  ["False", "None", "True", "and", "as", "assert", "async", "await", "break",
   "class", "continue", "def", "del", "elif", "else", "except", "finally",
   "for", "from", "global", "if", "import", "in", "is", "lambda", "nonlocal",
   "not", "or", "pass", "raise", "return", "try", "while", "with", "yield"]

/-- ASCII Python identifier test (stdlib behavior, for namedtuple field
validation). -/
def isPythonIdentifier (s : String) : Bool :=
  match s.data with
  | [] => false
  | c :: rest => (c.isAlpha || c = '_') && rest.all isWordChar

/-- Whether a string begins with an underscore (namedtuple rejects such
field names). -/
def startsWithUnderscore (s : String) : Bool :=
  match s.data with
  | [] => false
  | c :: _ => c = '_'

/-- `collections.namedtuple` field validation (stdlib, external): every name
must be a non-keyword identifier not starting with an underscore, and names
must not repeat; otherwise namedtuple raises a ValueError. -/
def namedtupleFieldsOk (cols : List String) : Bool :=
  cols.all (fun s => isPythonIdentifier s && !(s ∈ pythonKeywords) && !(startsWithUnderscore s)) &&
    decide (cols.length = (distinctInOrder [] cols).length)

/-- The namedtuple shape: field names and values (field access is by name). -/
structure NamedRow where
  fields : List String
  values : List PyValue
  deriving DecidableEq, Repr

/-- `namedtuple_row_factory` in factories.py: a single DML pseudo-column name
is renamed and accepted; otherwise namedtuple is tried, and on its
ValueError the duplicate-name check raises the more precise error, or the
original ValueError is re-raised (rendered opaquely here). -/
def namedtupleRowFactory (cols : List String) :
    Except PyError (List PyValue → NamedRow) :=
  if cols = ["rows inserted"] ∨ cols = ["rows updated"] ∨ cols = ["rows deleted"] then
    .ok (fun vals => ⟨["_0"], vals⟩)
  else if namedtupleFieldsOk cols then
    .ok (fun vals => ⟨cols, vals⟩)
  else
    match raiseOnDuplicateColumnNames cols with
    | some e => .error e
    | none => .error (.valueError ["Type names and field names must be valid identifiers"])

/-- Python str() of an exception: its lone argument, or the repr of the
argument tuple (arguments quoted). -/
def pyErrStr : PyError → String
  | .valueError [a] => a
  | .valueError args =>
    "(" ++ String.intercalate ", " (args.map (fun a => "\x27" ++ a ++ "\x27")) ++ ")"

/-- comdb2/cdb2.py Handle.execute lines 541-547: a row-factory exception e is
re-raised as `cdb2.Error(CDB2ERR_UNKNOWN, str(e))`. -/
def wrapRowFactoryError (e : PyError) : Cdb2Error :=
  ⟨.unknown, pyErrStr e⟩

/-! ## Close semantics (C6)

`comdb2/cdb2.py Handle.close` (lines 433-465) rebinds five method names on
the instance to closures that raise `Error(CDB2ERR_NOTCONNECTED, "%s() called
on closed connection" % func_name)`.  Python closures capture the loop
variable itself, not its value at the iteration, so by the time any closure
runs the variable holds the last list element, `column_types` — the source
marks this with `# FIXME message always says column_types`. -/

/-- The method names rebound by `Handle.close`. -/
def closedHandleMethods : List String :=
  ["close", "execute", "get_effects", "column_names", "column_types"]

/-- The value of the loop variable observed by every rebound closure: its
final value after the loop. -/
def closedHandleFuncVar : String :=
  closedHandleMethods.getLastD ""

/-- Invoking a method on a closed `comdb2.cdb2.Handle`: the rebound methods
raise NOTCONNECTED with the late-bound name; other attributes are untouched
(`none`). -/
def closedHandleCall (attempted : String) : Option Cdb2Error :=
  if attempted ∈ closedHandleMethods then
    some ⟨.notconnected, closedHandleFuncVar ++ "() called on closed connection"⟩
  else none

/-- The dbapi2 `Connection` as far as close tracking goes: whether `_hndl`
is still set. -/
structure DbConn where
  hndlOpen : Bool
  deriving DecidableEq, Repr

/-- `dbapi2.Connection.close` (lines 763-767): a second close raises
InterfaceError instead of silently doing nothing; a successful close releases
the handle.  (`cdb2api/__init__.py Connection.close`, lines 310-318, raises
the same InterfaceError message.) -/
def connectionClose (c : DbConn) : Except DbExc DbConn :=
  if c.hndlOpen = false then
    .error (.interface "close() called on already closed connection")
  else .ok { hndlOpen := false }

/-- `Connection._check_closed` (dbapi2.py lines 689-691): every other
operation on a closed connection raises this InterfaceError — a fixed message
that does not name the attempted operation. -/
def connectionCheckClosed (c : DbConn) : Option DbExc :=
  if c.hndlOpen = false then
    some (.interface "Attempted to use a closed Connection")
  else none

/-! ## Datetime encoding across the two generations (C9)

`comdb2/cdb2.py _cdb2_client_datetime_common` fills the tm fields from
`val.utctimetuple()` — the civil fields of the instant converted to UTC — and
labels the struct `UTC` unconditionally.  The legacy
`cdb2api/__init__.py _cdb2_client_datetime_common` (lines 66-77) instead
fills them from `val.timetuple()` — the civil fields in the value's own
zone — and labels the struct with `val.tzname()`.  Decoding in both
generations constructs a timestamp whose zone is looked up by the carried
label (`pytz.timezone(ffi.string(tzname))`). -/

/-- The legacy `_cdb2_client_datetime_common`: local civil fields (the
instant shifted by the zone offset) and the source zone label; `none` when
the zone is outside the modelled database. -/
def legacyClientDatetimeCommon (val : PyDatetime) : Option (Int × String) :=
  match tzOffsetSeconds val.tz with
  | some off => some (utcSeconds val.instantUs + off, val.tz)
  | none => none

/-! ## DatetimeUs closure under operations (comdb2/_cdb2_types.py, C10)

A Python datetime object at runtime is a pair of its class tag and its value;
the stdlib super-class operations (`datetime.__add__` and friends) construct
plain `datetime.datetime` results even when invoked on a subclass, which is
what the `DatetimeUs` overrides exist to correct. -/

/-- A runtime datetime object: the millisecond-precision class or the
DatetimeUs subclass. -/
inductive PyDt
  | datetime (d : PyDatetime)
  | datetimeUs (d : PyDatetime)
  deriving DecidableEq, Repr

/-- Whether the object is an instance of the DatetimeUs subclass. -/
def PyDt.isUs : PyDt → Bool
  | .datetimeUs _ => true
  | .datetime _ => false

/-- `DatetimeUs.fromdatetime` (lines 93-111): construct a DatetimeUs carrying
the same fields (year through microsecond, tzinfo, fold). -/
def datetimeUsFromdatetime : PyDt → PyDt
  | .datetime d => .datetimeUs d
  | .datetimeUs d => .datetimeUs d

/-- stdlib `datetime.__add__` with a timedelta (external): shifts the instant
and returns a plain datetime regardless of the receiver's class. -/
def superAdd (d : PyDatetime) (deltaUs : Int) : PyDt :=
  .datetime ⟨d.instantUs + deltaUs, d.tz⟩

/-- stdlib `datetime.__sub__` with a timedelta (external). -/
def superSub (d : PyDatetime) (deltaUs : Int) : PyDt :=
  .datetime ⟨d.instantUs - deltaUs, d.tz⟩

/-- stdlib `datetime.now(tz)` (external): the clock reading, as a plain
datetime. -/
def superNow (clockUs : Int) (tz : String) : PyDt :=
  .datetime ⟨clockUs, tz⟩

/-- stdlib `datetime.fromtimestamp(ts, tz)` (external): the converted
timestamp, as a plain datetime. -/
def superFromtimestamp (tsUs : Int) (tz : String) : PyDt :=
  .datetime ⟨tsUs, tz⟩

/-- stdlib `datetime.astimezone(tz)` (external): same instant, new zone, as
a plain datetime. -/
def superAstimezone (d : PyDatetime) (tz : String) : PyDt :=
  .datetime ⟨d.instantUs, tz⟩

/-- stdlib `datetime.replace(...)` (external): arbitrary replaced fields;
before Python 3.7 the class of the result is implementation dependent, so the
model takes the conservative plain-datetime reading. -/
def superReplace (newInstantUs : Int) (newTz : String) : PyDt :=
  .datetime ⟨newInstantUs, newTz⟩

/-- `DatetimeUs.__add__` (lines 113-117): the super result, rewrapped by
fromdatetime whenever it is a datetime (with a timedelta argument it always
is). -/
def datetimeUsAdd (self : PyDatetime) (deltaUs : Int) : PyDt :=
  datetimeUsFromdatetime (superAdd self deltaUs)

/-- `DatetimeUs.__sub__` (lines 119-123), timedelta argument. -/
def datetimeUsSub (self : PyDatetime) (deltaUs : Int) : PyDt :=
  datetimeUsFromdatetime (superSub self deltaUs)

/-- `DatetimeUs.__radd__` (lines 125-126): delegates to `__add__`. -/
def datetimeUsRadd (self : PyDatetime) (deltaUs : Int) : PyDt :=
  datetimeUsAdd self deltaUs

/-- `DatetimeUs.now` (lines 128-131). -/
def datetimeUsNow (clockUs : Int) (tz : String) : PyDt :=
  datetimeUsFromdatetime (superNow clockUs tz)

/-- `DatetimeUs.fromtimestamp` (lines 133-138). -/
def datetimeUsFromtimestamp (tsUs : Int) (tz : String) : PyDt :=
  datetimeUsFromdatetime (superFromtimestamp tsUs tz)

/-- `DatetimeUs.astimezone` (lines 140-142). -/
def datetimeUsAstimezone (self : PyDatetime) (tz : String) : PyDt :=
  datetimeUsFromdatetime (superAstimezone self tz)

/-- `DatetimeUs.replace` (lines 144-148): the super result is always passed
through fromdatetime, pinning the class even where the stdlib result class
is implementation dependent. -/
def datetimeUsReplace (newInstantUs : Int) (newTz : String) : PyDt :=
  datetimeUsFromdatetime (superReplace newInstantUs newTz)

/-! ## Concrete inputs used by witnesses and counterexamples -/

/-- A handle oracle on which every statement succeeds and get_effects fails
(so rowcount falls back to -1). -/
def oracleOk : Hndl :=
  { runStatement := fun _ => none
    getEffects := .error ⟨.unknown, "no effects"⟩ }

/-- A handle oracle on which the commit statement fails. -/
def oracleCommitFails : Hndl :=
  { runStatement := fun s =>
      if s = "commit" then some ⟨.unknown, "commit failed"⟩ else none
    getEffects := .error ⟨.unknown, "no effects"⟩ }

/-- A row whose second text column holds the lone continuation byte 0xC3:
invalid UTF-8, the malformed-text decode failure. -/
def badUtf8Row : List ResultCol :=
  [⟨.cstring, some (.utf8Buf "x")⟩, ⟨.cstring, some (.badUtf8Buf [0xC3])⟩]

/-- A well-formed integer row still pending behind the current one. -/
def pendingRow : List ResultCol :=
  [⟨.integer, some (.intBuf 7)⟩, ⟨.integer, some (.intBuf 8)⟩]

/-- Iteration state positioned on the malformed row, with one further row and
the clean end of the result set behind it. -/
def badUtf8State : IterState :=
  { moreRows := true
    names := ["a", "b"]
    current := badUtf8Row
    script := [.row pendingRow, .done] }

/-- The same situation for the legacy handle: the malformed column is the
whole current row. -/
def legacyBadUtf8State : IterState :=
  { moreRows := true
    names := ["b"]
    current := [⟨.cstring, some (.badUtf8Buf [0xC3])⟩]
    script := [.row pendingRow, .done] }

/-- The epoch instant carried by a New York zone: its civil fields in its own
zone differ from its UTC civil fields by the zone offset. -/
def nyDatetime : PyDatetime :=
  ⟨0, "America/New_York"⟩

/-! ## Helper lemmas -/

/-- Membership in `distinctInOrder`: exactly the list elements not excluded
by `seen`. -/
theorem mem_distinctInOrder (n : String) :
    ∀ (l seen : List String), n ∈ distinctInOrder seen l ↔ (n ∈ l ∧ n ∉ seen) := by
  intro l
  induction l with
  | nil => intro seen; simp [distinctInOrder]
  | cons x xs ih =>
    intro seen
    by_cases hx : x ∈ seen
    · simp only [distinctInOrder, if_pos hx, ih, List.mem_cons]
      constructor
      · rintro ⟨hn, hns⟩; exact ⟨Or.inr hn, hns⟩
      · rintro ⟨hn | hn, hns⟩
        · exact absurd (hn ▸ hx) hns
        · exact ⟨hn, hns⟩
    · simp only [distinctInOrder, if_neg hx, List.mem_cons, ih]
      constructor
      · rintro (rfl | ⟨hn, hns⟩)
        · exact ⟨Or.inl rfl, hx⟩
        · refine ⟨Or.inr hn, fun hs => hns ?_⟩
          simp [List.mem_cons, hs]
      · rintro ⟨rfl | hn, hns⟩
        · exact Or.inl rfl
        · by_cases hnx : n = x
          · exact Or.inl hnx
          · refine Or.inr ⟨hn, ?_⟩
            simp [List.mem_cons, hnx, hns]

/-- `distinctInOrder` is a sublist of its input. -/
theorem distinctInOrder_sublist :
    ∀ (l seen : List String), List.Sublist (distinctInOrder seen l) l := by
  intro l
  induction l with
  | nil => intro seen; simp [distinctInOrder]
  | cons x xs ih =>
    intro seen
    by_cases hx : x ∈ seen
    · simpa [distinctInOrder, if_pos hx] using (ih seen).cons x
    · simpa [distinctInOrder, if_neg hx] using (ih (x :: seen)).cons₂ x

/-- `distinctInOrder` has no duplicates. -/
theorem distinctInOrder_nodup :
    ∀ (l seen : List String), (distinctInOrder seen l).Nodup := by
  intro l
  induction l with
  | nil => intro seen; simp [distinctInOrder]
  | cons x xs ih =>
    intro seen
    by_cases hx : x ∈ seen
    · simpa [distinctInOrder, if_pos hx] using ih seen
    · simp only [distinctInOrder, if_neg hx, List.nodup_cons]
      refine ⟨fun hmem => ?_, ih (x :: seen)⟩
      exact ((mem_distinctInOrder x xs (x :: seen)).mp hmem).2 (List.mem_cons_self x seen)

/-- A duplicated element forces the distinct list to be shorter. -/
theorem length_distinctInOrder_ne (cols : List String) (n : String)
    (_hn : n ∈ cols) (hcount : 2 ≤ cols.count n) :
    cols.length ≠ (distinctInOrder [] cols).length := by
  intro hlen
  have hsub := distinctInOrder_sublist cols []
  have heq : distinctInOrder [] cols = cols := hsub.eq_of_length hlen.symm
  have hnodup : cols.Nodup := heq ▸ distinctInOrder_nodup cols []
  have := List.nodup_iff_count_le_one.mp hnodup n
  omega

/-- With sufficient fuel, the drain loop always ends with the more-rows flag
clear. -/
theorem consumeAllRowsAux_moreRows :
    ∀ (fuel : Nat) (st : IterState),
      st.script.length < fuel ∨ st.moreRows = false →
      (consumeAllRowsAux fuel st).1.moreRows = false := by
  intro fuel
  induction fuel with
  | zero =>
    intro st h
    rcases h with h | h
    · omega
    · simpa [consumeAllRowsAux] using h
  | succ f ih =>
    intro st h
    by_cases hm : st.moreRows = false
    · simp [consumeAllRowsAux, hm]
    · have hm2 : st.moreRows = true := by
        cases hflag : st.moreRows
        · exact absurd hflag hm
        · rfl
      rcases h with h | h
      swap
      · exact absurd h hm
      simp only [consumeAllRowsAux, hm2]
      cases hs : st.script with
      | nil =>
        simp only [nextRecord, hs]
        exact ih _ (Or.inr rfl)
      | cons o rest =>
        cases o with
        | row cols =>
          simp only [nextRecord, hs]
          refine ih _ (Or.inl ?_)
          simp only [hs] at h
          simpa using Nat.lt_of_succ_lt_succ h
        | done =>
          simp only [nextRecord, hs]
          exact ih _ (Or.inr rfl)
        | fail e =>
          simp [nextRecord, hs]

/-- The drained state has no rows pending. -/
theorem consumeAllRows_moreRows (st : IterState) :
    (consumeAllRows st).1.moreRows = false :=
  consumeAllRowsAux_moreRows _ st (Or.inl (Nat.lt_succ_self _))


/-! ## Claim theorems -/

/-- Claim C1: in implicit (non-autocommit) mode, any statement reaching
`Cursor._execute` whose first keyword after comments and whitespace is not
`set`, started outside a transaction, causes a literal `begin` to be sent to
the handle first — before the submitted statement, which follows it
immediately when interpolation and the begin succeed — and the begin phase
leaves the in_transaction flag true; in autocommit mode the layer never sends
an implicit begin: the only statement ever sent is the submitted one. -/
theorem implicit_begin_before_statement (h : Hndl) (conn : ConnState)
    (sql : String) (interp : InterpResult) :
    (conn.autocommit = false → conn.inTransaction = false →
      sqlOperation sql ≠ some "set" →
        (cursorPrivExecute h conn sql interp).sent.head? = some "begin" ∧
        (h.runStatement "begin" = none →
          (implicitBeginPhase h conn (sqlOperation sql)).2.1.inTransaction = true) ∧
        (∀ s, interp = .ok s → h.runStatement "begin" = none →
          (cursorPrivExecute h conn sql interp).sent = ["begin", s])) ∧
    (conn.autocommit = true →
      (cursorPrivExecute h conn sql interp).sent = [] ∨
      ∃ s, interp = .ok s ∧ (cursorPrivExecute h conn sql interp).sent = [s]) := by
  constructor
  · intro ha hi hset
    refine ⟨?_, ?_, ?_⟩
    · cases hb : h.runStatement "begin" with
      | some e =>
        simp [cursorPrivExecute, implicitBeginPhase, ha, hi, hset, hb]
      | none =>
        cases hin : interpolatePhase interp with
        | error e =>
          simp [cursorPrivExecute, implicitBeginPhase, ha, hi, hset, hb, hin]
        | ok sqlF =>
          cases hr : h.runStatement sqlF with
          | some e =>
            simp [cursorPrivExecute, implicitBeginPhase, ha, hi, hset, hb, hin, hr]
          | none =>
            simp [cursorPrivExecute, implicitBeginPhase, ha, hi, hset, hb, hin, hr]
            split_ifs <;> rfl
    · intro hb
      simp [implicitBeginPhase, ha, hi, hset, hb]
    · intro s hs hb
      subst hs
      cases hr : h.runStatement s with
      | some e =>
        simp [cursorPrivExecute, implicitBeginPhase, interpolatePhase, ha, hi, hset, hb, hr]
      | none =>
        simp [cursorPrivExecute, implicitBeginPhase, interpolatePhase, ha, hi, hset, hb, hr]
        split_ifs <;> rfl
  · intro ha
    cases hin : interpolatePhase interp with
    | error e =>
      exact Or.inl (by simp [cursorPrivExecute, implicitBeginPhase, ha, hin])
    | ok sqlF =>
      refine Or.inr ⟨sqlF, ?_, ?_⟩
      · cases interp with
        | ok s => cases hin; rfl
        | keyError k => cases hin
        | otherError => cases hin
      · cases hr : h.runStatement sqlF with
        | some e =>
          simp [cursorPrivExecute, implicitBeginPhase, ha, hin, hr]
        | none =>
          simp [cursorPrivExecute, implicitBeginPhase, ha, hin, hr]
          split_ifs <;> rfl

/-- Claim C1 witness: a concrete insert in implicit mode outside a
transaction, with a succeeding oracle. -/
theorem implicit_begin_before_statement_witness :
    (cursorPrivExecute oracleOk ⟨false, false⟩ "insert into t(x) values(1)"
        (.ok "insert into t(x) values(1)")).sent =
      ["begin", "insert into t(x) values(1)"] :=
  ((implicit_begin_before_statement oracleOk ⟨false, false⟩
      "insert into t(x) values(1)" (.ok "insert into t(x) values(1)")).1
    rfl rfl (by decide)).2.2 _ rfl rfl

/-- Claim C2: in implicit (non-autocommit) mode, a statement whose first
keyword is begin, commit or rollback is rejected by `Cursor.execute` with an
InterfaceError carrying the operation-specific message, with nothing sent to
the handle and the connection state and rowcount untouched; in autocommit
mode `Cursor.execute` simply runs `Cursor._execute`, treating those
statements like any other. -/
theorem explicit_txn_statements_rejected (h : Hndl) (conn : ConnState)
    (sql : String) (interp : InterpResult) (rc0 : Int) :
    (conn.autocommit = false →
      (sqlOperation sql = some "begin" ∨ sqlOperation sql = some "commit" ∨
          sqlOperation sql = some "rollback") →
      ∃ msg, errorMessagesByOperation (sqlOperation sql) = some msg ∧
        cursorExecute h conn sql interp rc0 = ⟨[], conn, rc0, some (.interface msg)⟩) ∧
    (conn.autocommit = true →
      cursorExecute h conn sql interp rc0 = cursorPrivExecute h conn sql interp) := by
  constructor
  · intro ha hop
    have hmsg : ∃ msg, errorMessagesByOperation (sqlOperation sql) = some msg := by
      rcases hop with hop | hop | hop <;> rw [hop] <;> exact ⟨_, rfl⟩
    rcases hmsg with ⟨msg, hmsg⟩
    exact ⟨msg, hmsg, by simp [cursorExecute, ha, hmsg]⟩
  · intro ha
    simp [cursorExecute, ha]

/-- Claim C2 witness: a commit statement on an implicit-mode connection, and
the same statement running normally on an autocommit connection. -/
theorem explicit_txn_statements_rejected_witness :
    cursorExecute oracleOk ⟨false, true⟩ "commit" (.ok "commit") 3 =
      ⟨[], ⟨false, true⟩, 3,
        some (.interface "Use Connection.commit to commit transactions")⟩ ∧
    cursorExecute oracleOk ⟨true, true⟩ "commit" (.ok "commit") 3 =
      cursorPrivExecute oracleOk ⟨true, true⟩ "commit" (.ok "commit") := by
  constructor
  · obtain ⟨msg, hmsg, heq⟩ :=
      (explicit_txn_statements_rejected oracleOk ⟨false, true⟩ "commit"
          (.ok "commit") 3).1 rfl (Or.inr (Or.inl (by decide)))
    have hm : msg = "Use Connection.commit to commit transactions" := by
      have h2 : errorMessagesByOperation (sqlOperation "commit") =
          some "Use Connection.commit to commit transactions" := by decide
      rw [hmsg] at h2
      exact Option.some.inj h2
    rw [hm] at heq
    exact heq
  · exact (explicit_txn_statements_rejected oracleOk ⟨true, true⟩ "commit"
      (.ok "commit") 3).2 rfl

/-- Claim C3: when `Cursor._execute` runs a statement classified commit or
rollback and the statement actually reaches the handle (interpolation
succeeded and the implicit-begin phase did not raise), the in_transaction
flag is cleared before the send, the final state has it false whatever the
handle answers, and a handle failure is re-raised wrapped — the transaction
ends regardless of the statement outcome. -/
theorem txn_flag_cleared_on_commit_rollback (h : Hndl) (conn : ConnState)
    (sql s : String) (interp : InterpResult)
    (hop : operationEndsTransaction (sqlOperation sql) = true)
    (hinterp : interp = .ok s)
    (hbegin : (implicitBeginPhase h conn (sqlOperation sql)).2.2 = none) :
    (cursorPrivExecute h conn sql interp).sent.getLast? = some s ∧
    (cursorPrivExecute h conn sql interp).conn.inTransaction = false ∧
    (cursorPrivExecute h conn sql interp).error =
      (h.runStatement s).map wrapExc := by
  have hnotbegin : sqlOperation sql ≠ some "begin" := by
    intro hb
    rw [hb] at hop
    simp [operationEndsTransaction] at hop
  subst hinterp
  rcases hphase : implicitBeginPhase h conn (sqlOperation sql) with ⟨sent, conn1, err⟩
  have herr : err = none := by rw [hphase] at hbegin; exact hbegin
  subst herr
  cases hr : h.runStatement s with
  | some e =>
    simp [cursorPrivExecute, hphase, interpolatePhase, hop, hr]
  | none =>
    simp [cursorPrivExecute, hphase, interpolatePhase, hop, hr, hnotbegin]
    split <;> simp

/-- Claim C3 witness: a commit in autocommit mode inside an open transaction,
against an oracle whose commit fails: the flag still ends false and the
wrapped failure is raised. -/
theorem txn_flag_cleared_on_commit_rollback_witness :
    (cursorPrivExecute oracleCommitFails ⟨true, true⟩ "commit" (.ok "commit")).sent.getLast?
        = some "commit" ∧
    (cursorPrivExecute oracleCommitFails ⟨true, true⟩ "commit" (.ok "commit")).conn.inTransaction
        = false ∧
    (cursorPrivExecute oracleCommitFails ⟨true, true⟩ "commit" (.ok "commit")).error =
      (oracleCommitFails.runStatement "commit").map wrapExc :=
  txn_flag_cleared_on_commit_rollback oracleCommitFails ⟨true, true⟩ "commit"
    "commit" (.ok "commit") (by decide) rfl (by decide)

/-- Claim C4, counterexample: the claim quantifies over every supported
variant and excepts only the millisecond datetime, but the double variant
also breaks it at NaN — the round trip returns the same NaN double, and
Python == (IEEE equality) reports NaN unequal to itself, so decode(encode(v))
== v fails at v = float("nan"). -/
theorem value_roundtrip_fails_at_nan :
    decodeEncode (.real .nan) = some (.real .nan) ∧
    PyValue.pyEq (.real .nan) (.real .nan) = false :=
  ⟨rfl, rfl⟩

/-- Claim C4 as amended: for null, in-range integers, non-NaN doubles, bytes,
text and microsecond datetimes, decoding the encoding returns a value equal
(Python ==) to the original; NaN doubles round-trip to the same double but
compare unequal under IEEE ==; the millisecond variant encodes by rounding
the microseconds to the nearest millisecond with ties away from zero (the
microsecond field is nonnegative, so upward), hence its round trip equals the
original exactly when the value is already at millisecond precision, the
rounding moves the instant by at most 500 microseconds, a tie moves it
upward, and one rounding pass makes the map idempotent. -/
theorem value_roundtrip_amended (v : PyValue) (h : RoundTrippable v) :
    ∃ w, decodeEncode v = some w ∧
      (v.isMsDatetime = false → w.pyEq v = true) ∧
      (∀ d, v = .datetime d →
        w = .datetime ⟨msRound d.instantUs, "UTC"⟩ ∧
        (w.pyEq v = true ↔ (1000 : Int) ∣ d.instantUs) ∧
        msRound (msRound d.instantUs) = msRound d.instantUs ∧
        (msRound d.instantUs - d.instantUs).natAbs ≤ 500 ∧
        (d.instantUs % 1000 = 500 → msRound d.instantUs = d.instantUs + 500)) := by
  cases v with
  | none =>
    exact ⟨.none, rfl, fun _ => rfl, fun d hd => by cases hd⟩
  | int i =>
    have hr : -(2 ^ 63) ≤ i ∧ i < 2 ^ 63 := h
    have hr1 : (-9223372036854775808 : Int) ≤ i := by omega
    have hr2 : i < (9223372036854775808 : Int) := by omega
    refine ⟨.int i, ?_, fun _ => by simp [PyValue.pyEq], fun d hd => by cases hd⟩
    simp [decodeEncode, bindArgs, hr1, hr2, wireCol, columnValueRaw, optToValue]
  | real f =>
    have hf : f ≠ F64.nan := h
    refine ⟨.real f, rfl, fun _ => ?_, fun d hd => by cases hd⟩
    cases f with
    | finite q => simp [PyValue.pyEq, F64.pyEq]
    | inf => rfl
    | negInf => rfl
    | nan => exact absurd rfl hf
  | blob b =>
    exact ⟨.blob b, rfl, fun _ => by simp [PyValue.pyEq], fun d hd => by cases hd⟩
  | text s =>
    exact ⟨.text s, rfl, fun _ => by simp [PyValue.pyEq], fun d hd => by cases hd⟩
  | datetimeUs d =>
    refine ⟨.datetimeUs ⟨d.instantUs, "UTC"⟩, ?_, fun _ => ?_, fun d2 hd => by cases hd⟩
    · have key : decodeEncode (.datetimeUs d) =
          some (.datetimeUs ⟨(d.instantUs / 1000000 - 0) * 1000000 +
            d.instantUs % 1000000, "UTC"⟩) := rfl
      have inst : (d.instantUs / 1000000 - 0) * 1000000 + d.instantUs % 1000000 =
          d.instantUs := by omega
      rw [key, inst]
    · simp [PyValue.pyEq]
  | datetime d =>
    refine ⟨.datetime ⟨msRound d.instantUs, "UTC"⟩, ?_, ?_, ?_⟩
    · have key : decodeEncode (.datetime d) =
          some (.datetime ⟨((d.instantUs + 500) / 1000000 - 0) * 1000000 +
            (d.instantUs + 500) % 1000000 / 1000 * 1000, "UTC"⟩) := rfl
      have inst : ((d.instantUs + 500) / 1000000 - 0) * 1000000 +
          (d.instantUs + 500) % 1000000 / 1000 * 1000 = msRound d.instantUs := by
        unfold msRound; omega
      rw [key, inst]
    · intro hf
      simp [PyValue.isMsDatetime] at hf
    · intro d2 hd
      have hd2 : d = d2 := by injection hd
      subst hd2
      refine ⟨rfl, ?_, ?_, ?_, ?_⟩
      · simp only [PyValue.pyEq, decide_eq_true_eq, msRound]
        omega
      · unfold msRound; omega
      · unfold msRound; omega
      · intro htie; unfold msRound; omega

/-- Claim C4 amended witness: the in-range integer 5 and the millisecond
datetime half a millisecond past the epoch. -/
theorem value_roundtrip_amended_witness :
    (∃ w, decodeEncode (.int 5) = some w ∧ w.pyEq (.int 5) = true) ∧
    (∃ w, decodeEncode (.datetime ⟨500, "America/New_York"⟩) = some w ∧
      w = .datetime ⟨msRound 500, "UTC"⟩) := by
  constructor
  · obtain ⟨w, h1, h2, -⟩ := value_roundtrip_amended (.int 5) ⟨by decide, by decide⟩
    exact ⟨w, h1, h2 (by decide)⟩
  · obtain ⟨w, h1, -, h3⟩ :=
      value_roundtrip_amended (.datetime ⟨500, "America/New_York"⟩) trivial
    exact ⟨w, h1, (h3 _ rfl).1⟩

/-- Claim C5, counterexample: in `comdb2/cdb2.py Handle.__next__` — one of
the two implementations the claim names — a malformed-UTF-8 column makes the
wrapped CONV_FAIL error surface immediately, with the more-rows flag still
set and the remaining rows still pending in the native cursor: nothing is
drained before the error is raised (the pending rows are only consumed at the
start of the next execute). -/
theorem decode_failure_without_drain_counterexample :
    (comdb2Next badUtf8State).1.errorCode = some .convFail ∧
    (comdb2Next badUtf8State).2.moreRows = true ∧
    (comdb2Next badUtf8State).2.script = [.row pendingRow, .done] := by
  refine ⟨?_, ?_, ?_⟩ <;> rfl

/-- Claim C5 as amended: only the legacy `cdb2api/cdb2api.py Handle.__next__`
drains, and only for UnicodeDecodeError.  There, when decoding the current
row raises a UnicodeDecodeError, the remaining rows are drained before any
error surfaces: the final state is the drained state with no rows pending; an
error raised by the drain itself is the one propagated; and when the drain is
clean the original decode failure is reported as a CONV_FAIL conversion
error. -/
theorem legacy_unicode_drain_before_error (st : IterState) (b : List UInt8)
    (hmore : st.moreRows = true)
    (hdec : legacyDecodeRow st.current = .error (.unicode b)) :
    (legacyNext st).2 = (consumeAllRows st).1 ∧
    (legacyNext st).2.moreRows = false ∧
    (∀ e, (consumeAllRows st).2 = some e → (legacyNext st).1 = .error e) ∧
    ((consumeAllRows st).2 = none →
      (legacyNext st).1 = .error ⟨.convFail, unicodeDecodeErrorStr b⟩) := by
  have hflag := consumeAllRows_moreRows st
  rcases hc : consumeAllRows st with ⟨st2, e2⟩
  rw [hc] at hflag
  cases e2 with
  | some e =>
    refine ⟨by simp [legacyNext, hmore, hdec, hc], ?_, ?_, ?_⟩
    · simpa [legacyNext, hmore, hdec, hc] using hflag
    · intro e3 he3
      simp only at he3
      cases he3
      simp [legacyNext, hmore, hdec, hc]
    · intro hnone
      simp at hnone
  | none =>
    refine ⟨by simp [legacyNext, hmore, hdec, hc], ?_, ?_, ?_⟩
    · simpa [legacyNext, hmore, hdec, hc] using hflag
    · intro e3 he3
      simp at he3
    · intro hdone
      simp [legacyNext, hmore, hdec, hc]

/-- Claim C5 amended witness: the legacy handle positioned on a
malformed-UTF-8 row with one further pending row and a clean end: the rows
are drained and the original failure surfaces as CONV_FAIL. -/
theorem legacy_unicode_drain_before_error_witness :
    (legacyNext legacyBadUtf8State).2 = (consumeAllRows legacyBadUtf8State).1 ∧
    (legacyNext legacyBadUtf8State).2.moreRows = false ∧
    ((consumeAllRows legacyBadUtf8State).2 = none →
      (legacyNext legacyBadUtf8State).1 =
        .error ⟨.convFail, unicodeDecodeErrorStr [0xC3]⟩) := by
  obtain ⟨h1, h2, h3, h4⟩ :=
    legacy_unicode_drain_before_error legacyBadUtf8State [0xC3] rfl rfl
  exact ⟨h1, h2, h4⟩

/-- Claim C6: the double-close guard is real — `Connection.close` on an
already-closed connection raises InterfaceError rather than silently
returning, and other operations on a closed connection raise InterfaceError
— but the claim that the message names the attempted operation is contradicted
by the code itself: the closures installed by `comdb2/cdb2.py Handle.close`
late-bind the loop variable, so calling execute on a closed handle reports
"column_types() called on closed connection" (the source marks this with
`# FIXME message always says column_types`), and the connection-level message
is a fixed string naming no operation. -/
theorem closed_handle_operation_message_bug :
    connectionClose { hndlOpen := true } = .ok { hndlOpen := false } ∧
    connectionClose { hndlOpen := false } =
      .error (.interface "close() called on already closed connection") ∧
    connectionCheckClosed { hndlOpen := false } =
      some (.interface "Attempted to use a closed Connection") ∧
    closedHandleCall "execute" =
      some ⟨.notconnected, "column_types() called on closed connection"⟩ ∧
    ("column_types() called on closed connection" : String) ≠
      "execute() called on closed connection" := by
  refine ⟨rfl, rfl, rfl, by decide, by decide⟩

/-- Claim C7: binding an integer outside the signed 64-bit range fails with
a CONV_FAIL error — mapped to DataError by the dbapi2 table — and produces no
buffer at all (nothing truncated is ever bound); an in-range integer is bound
exactly, as an 8-byte signed integer buffer holding the value itself. -/
theorem int_bind_overflow_dataerror (i : Int) :
    (¬(-(2 ^ 63) ≤ i ∧ i < 2 ^ 63) →
      ∃ msg, bindArgs (.int i) = .error ⟨.convFail, msg⟩ ∧
        exceptionByRc .convFail = .dataError) ∧
    ((-(2 ^ 63) ≤ i ∧ i < 2 ^ 63) →
      bindArgs (.int i) = .ok (.integer, some (.intBuf i), .bytes 8)) := by
  have heq : bindArgs (.int i) =
      if -(2 ^ 63) ≤ i ∧ i < 2 ^ 63 then
        .ok (.integer, some (.intBuf i), .bytes 8)
      else
        .error ⟨.convFail, "Can\x27t bind value " ++ toString i ++ ": OverflowError"⟩ :=
    rfl
  constructor
  · intro hout
    refine ⟨"Can\x27t bind value " ++ toString i ++ ": OverflowError", ?_, rfl⟩
    rw [heq, if_neg hout]
  · intro hin
    rw [heq, if_pos hin]

/-- Claim C7 witness: 2 to the 63rd overflows and 5 binds exactly; on the
concrete overflow message the full wrapped-exception chooser also lands on
DataError. -/
theorem int_bind_overflow_dataerror_witness :
    (∃ msg, bindArgs (.int (2 ^ 63)) = .error ⟨.convFail, msg⟩ ∧
      exceptionByRc .convFail = .dataError) ∧
    bindArgs (.int 5) = .ok (.integer, some (.intBuf 5), .bytes 8) ∧
    raiseWrappedKind ⟨.convFail, "Can\x27t bind value 9223372036854775808: OverflowError"⟩ =
      .dataError :=
  ⟨(int_bind_overflow_dataerror (2 ^ 63)).1 (by decide),
   (int_bind_overflow_dataerror 5).2 (by decide),
   by decide⟩

/-- Claim C8, counterexample: at columns [a, a] the keyed factories do not
raise InterfaceError — they raise a Python ValueError("Duplicated column
names", "a"), which `Handle.execute` wraps as a cdb2.Error with code UNKNOWN
and the dbapi2 layer therefore surfaces as OperationalError (the repository
test suite asserts OperationalError for this case), a different class from
the InterfaceError the claim names. -/
theorem duplicate_columns_counterexample :
    dictRowFactory ["a", "a"] =
      .error (.valueError ["Duplicated column names", "a"]) ∧
    namedtupleRowFactory ["a", "a"] =
      .error (.valueError ["Duplicated column names", "a"]) ∧
    raiseWrappedKind (wrapRowFactoryError (.valueError ["Duplicated column names", "a"])) =
      .operationalError ∧
    ExcKind.operationalError ≠ ExcKind.interfaceError := by
  refine ⟨rfl, rfl, by decide, by decide⟩

/-- Claim C8 as amended: for a column list with at least one duplicated name,
both keyed factories fail with ValueError("Duplicated column names", *bad)
where bad lists exactly the duplicated names (each listed name occurs at
least twice, every name occurring at least twice is listed); when that error
message does not happen to contain the null-constraint needle, the dbapi2
layer surfaces the wrapped UNKNOWN error as OperationalError; and the
positional (default) row shape returns the decoded column values unchanged in
positional order. -/
theorem duplicate_columns_amended (cols : List String) (n : String)
    (hn : n ∈ cols) (hcount : 2 ≤ cols.count n) :
    dictRowFactory cols =
      .error (.valueError ("Duplicated column names" :: duplicatedNames cols)) ∧
    namedtupleRowFactory cols =
      .error (.valueError ("Duplicated column names" :: duplicatedNames cols)) ∧
    (∀ m, m ∈ duplicatedNames cols ↔ (m ∈ cols ∧ 2 ≤ cols.count m)) ∧
    (containsSub
        (pyErrStr (.valueError ("Duplicated column names" :: duplicatedNames cols))).data
        "null constraint violation".data = false →
      raiseWrappedKind
          (wrapRowFactoryError
            (.valueError ("Duplicated column names" :: duplicatedNames cols))) =
        .operationalError) ∧
    (∀ st r st2, st.moreRows = true → comdb2DecodeRow st = .ok r →
      nextRecord st = (st2, none) → comdb2Next st = (.row r, st2)) := by
  have hlen : cols.length ≠ (distinctInOrder [] cols).length :=
    length_distinctInOrder_ne cols n hn hcount
  have hne1 : ¬(cols = ["rows inserted"] ∨ cols = ["rows updated"] ∨
      cols = ["rows deleted"]) := by
    rintro (rfl | rfl | rfl) <;> exact hlen (by decide)
  have hok : namedtupleFieldsOk cols = false := by
    simp [namedtupleFieldsOk, hlen]
  refine ⟨?_, ?_, ?_, ?_, ?_⟩
  · simp [dictRowFactory, raiseOnDuplicateColumnNames, hlen]
  · simp [namedtupleRowFactory, hne1, hok, raiseOnDuplicateColumnNames, hlen]
  · intro m
    simp only [duplicatedNames, List.mem_filter, mem_distinctInOrder,
      List.not_mem_nil, not_false_iff, and_true, decide_eq_true_eq]
    constructor
    · rintro ⟨hm, hc⟩; exact ⟨hm, by omega⟩
    · rintro ⟨hm, hc⟩; exact ⟨hm, by omega⟩
  · intro hneedle
    simp [raiseWrappedKind, wrapRowFactoryError, hneedle, exceptionByRc]
  · intro st r st2 hm hdec hnr
    simp [comdb2Next, hm, hdec, hnr]

/-- Claim C8 amended witness: the concrete list [a, a] with the duplicated
name a. -/
theorem duplicate_columns_amended_witness :
    dictRowFactory ["a", "a"] =
      .error (.valueError ("Duplicated column names" :: duplicatedNames ["a", "a"])) ∧
    ("a" ∈ duplicatedNames ["a", "a"] ↔
      ("a" ∈ ["a", "a"] ∧ 2 ≤ List.count "a" ["a", "a"])) := by
  obtain ⟨h1, h2, h3, h4, h5⟩ :=
    duplicate_columns_amended ["a", "a"] "a" (by decide) (by decide)
  exact ⟨h1, h3 "a"⟩

/-- Claim C9, counterexample: in `comdb2/cdb2.py` — the datetime encoder the
claim cites first — the encoded struct does not carry the source value's own
civil fields and timezone name: for the epoch instant in America/New_York the
carried label is the fixed string UTC, not the source zone name, and the
carried civil fields are the UTC fields (seconds value 0), not the source's
local civil fields (seconds value -18000). -/
theorem datetime_encode_tz_counterexample :
    (cdb2ClientDatetimeUsT nyDatetime).tzname = "UTC" ∧
    nyDatetime.tz = "America/New_York" ∧
    (cdb2ClientDatetimeUsT nyDatetime).tzname ≠ nyDatetime.tz ∧
    (cdb2ClientDatetimeUsT nyDatetime).tmSeconds = 0 ∧
    legacyClientDatetimeCommon nyDatetime = some (-18000, "America/New_York") ∧
    ((0 : Int) ≠ -18000) := by
  refine ⟨rfl, rfl, by decide, rfl, rfl, by decide⟩

/-- Claim C9 as amended: the legacy `cdb2api/__init__.py` encoder carries the
source value's civil calendar fields (its local civil time, the instant
shifted by its zone offset) together with the source's timezone name as an
opaque label; the `comdb2/cdb2.py` encoder first converts to UTC
(`utctimetuple`) and always carries the label UTC with the UTC civil fields
and the microsecond field; and decoding constructs a zoned timestamp whose
zone is exactly the one looked up by the carried name. -/
theorem datetime_encode_amended (v : PyDatetime) (off : Int)
    (hoff : tzOffsetSeconds v.tz = some off) :
    legacyClientDatetimeCommon v = some (utcSeconds v.instantUs + off, v.tz) ∧
    (cdb2ClientDatetimeUsT v).tzname = "UTC" ∧
    (cdb2ClientDatetimeUsT v).tmSeconds = utcSeconds v.instantUs ∧
    (cdb2ClientDatetimeUsT v).usec = microsecondField v.instantUs ∧
    (∀ tm us name d, constructDatetime tm us name = some d → d.tz = name) := by
  refine ⟨by simp [legacyClientDatetimeCommon, hoff], rfl, rfl, rfl, ?_⟩
  intro tm us name d hc
  unfold constructDatetime at hc
  cases hz : tzOffsetSeconds name with
  | none => rw [hz] at hc; cases hc
  | some o => rw [hz] at hc; cases hc; rfl

/-- Claim C9 amended witness: one second past the epoch in the EST zone. -/
theorem datetime_encode_amended_witness :
    legacyClientDatetimeCommon ⟨1000000, "EST"⟩ =
      some (utcSeconds 1000000 + -18000, "EST") :=
  (datetime_encode_amended ⟨1000000, "EST"⟩ (-18000) rfl).1

/-- Claim C10: the DatetimeUs type is closed under its own operations — add,
sub, radd with a timedelta, now, fromtimestamp, astimezone and replace all
return a DatetimeUs, never a plain millisecond datetime, and the arithmetic
operations shift the instant as expected, so a microsecond-typed value is
never silently downgraded before binding. -/
theorem datetimeus_closed_under_operations (d : PyDatetime)
    (deltaUs clockUs tsUs newInstantUs : Int) (tz newTz : String) :
    (datetimeUsAdd d deltaUs).isUs = true ∧
    (datetimeUsSub d deltaUs).isUs = true ∧
    (datetimeUsRadd d deltaUs).isUs = true ∧
    (datetimeUsNow clockUs tz).isUs = true ∧
    (datetimeUsFromtimestamp tsUs tz).isUs = true ∧
    (datetimeUsAstimezone d tz).isUs = true ∧
    (datetimeUsReplace newInstantUs newTz).isUs = true ∧
    datetimeUsAdd d deltaUs = .datetimeUs ⟨d.instantUs + deltaUs, d.tz⟩ ∧
    datetimeUsSub d deltaUs = .datetimeUs ⟨d.instantUs - deltaUs, d.tz⟩ :=
  ⟨rfl, rfl, rfl, rfl, rfl, rfl, rfl, rfl, rfl⟩
